import Mathlib

/-!
Shallow embedding of the exercise-tracker service (src/index.js, the User
schema, the error middleware and the database module), together with proofs
of the specified properties of its validation, normalization and handler
logic.

Conventions of the embedding:
* The document store is an explicit `Db` value (a list of users and a list
  of exercises); store-generated ids are passed in as parameters.
* Each request handler becomes a pure function from the request data and
  the store state to a response value (and the updated store where the
  handler writes).  The logs handler returns a *list* of responses because
  the source can forward an error with `next(...)` and still fall through
  to `res.status(200).json(...)` on the same request.
* `User.findById` raises a cast error on an id that is not a well-formed
  ObjectId; this is modelled by `findById` returning `Except`, and each
  `try`/`catch` block of a handler by matching on that `Except` at the top.
* Calendar dates are a `Date` structure (year/month/day as `Nat`);
  `moment(d).format("YYYY-MM-DD")` is `formatDate`, and the strict parse
  `moment(s, "YYYY-MM-DD", true).isValid()` is `isValidFormat`.
-/

/-- A calendar date as handled by the service: numeric year, month, day. -/
structure Date where
  year : Nat
  month : Nat
  day : Nat
deriving DecidableEq, Repr

/-- Gregorian leap-year test, as applied by the date library backing
`moment(s, "YYYY-MM-DD", true)`. -/
def isLeapYear (y : Nat) : Bool :=
  y % 4 == 0 && (y % 100 != 0 || y % 400 == 0)

/-- Number of days in a month of a given year. -/
def daysInMonth (y m : Nat) : Nat :=
  if m == 2 then (if isLeapYear y then 29 else 28)
  else if m == 4 || m == 6 || m == 9 || m == 11 then 30
  else 31

/-- Numeric value of a decimal digit character. -/
def digitVal (c : Char) : Nat := c.toNat - 48

/-- Strict parse of a character list against the `YYYY-MM-DD` pattern:
exactly four digits, a dash, two digits, a dash, two digits, and the
resulting month/day must denote a real calendar date.  This is the
behaviour of `moment(s, "YYYY-MM-DD", true).isValid()` used by the
exercise-creation handler in src/index.js. -/
def parseDateList : List Char → Option Date
  | [y1, y2, y3, y4, s1, m1, m2, s2, d1, d2] =>
    if s1 == '-' && s2 == '-'
        && y1.isDigit && y2.isDigit && y3.isDigit && y4.isDigit
        && m1.isDigit && m2.isDigit && d1.isDigit && d2.isDigit then
      let y := digitVal y1 * 1000 + digitVal y2 * 100 + digitVal y3 * 10 + digitVal y4
      let m := digitVal m1 * 10 + digitVal m2
      let d := digitVal d1 * 10 + digitVal d2
      if 1 ≤ m && m ≤ 12 && 1 ≤ d && d ≤ daysInMonth y m then
        some ⟨y, m, d⟩
      else none
    else none
  | _ => none

/-- Strict parse of a string in `YYYY-MM-DD` format. -/
def parseDate (s : String) : Option Date :=
  parseDateList s.data

/-- The date-validity check `isValidFormat` of the exercise-creation
handler: `moment(date, "YYYY-MM-DD", true).isValid()`. -/
def isValidFormat (s : String) : Bool :=
  (parseDate s).isSome

/-- Two-digit zero-padded rendering of a number (`MM` / `DD` of moment). -/
def pad2 (n : Nat) : String :=
  if n < 10 then "0" ++ toString n else toString n

/-- Four-digit zero-padded rendering of a number (`YYYY` of moment). -/
def pad4 (n : Nat) : String :=
  if n < 10 then "000" ++ toString n
  else if n < 100 then "00" ++ toString n
  else if n < 1000 then "0" ++ toString n
  else toString n

/-- Rendering of a stored date as `moment(date).format("YYYY-MM-DD")`. -/
def formatDate (d : Date) : String :=
  pad4 d.year ++ "-" ++ pad2 d.month ++ "-" ++ pad2 d.day

/-- Hexadecimal digit test used by the ObjectId shape check. -/
def isHexChar (c : Char) : Bool :=
  c.isDigit || ('a' ≤ c && c ≤ 'f') || ('A' ≤ c && c ≤ 'F')

/-- The id shape check `mongoose.Types.ObjectId.isValid` as applied to a
path segment: a 24-character hexadecimal token (spec §4.2: "a fixed-length,
fixed-alphabet token — 24 hexadecimal characters in the reference store"). -/
def isValidObjectId (s : String) : Bool :=
  s.length == 24 && s.data.all isHexChar

/-- Username normalization of the User schema setter:
`value.charAt(0).toUpperCase() + value.slice(1).toLowerCase()` — the first
character uppercased, every later character lowercased. -/
def normalizeUsername (s : String) : String :=
  match s.data with
  | [] => ""
  | c :: cs => ⟨Char.toUpper c :: cs.map Char.toLower⟩

/-- Lexicographic order on character lists, the order the document store
uses to evaluate `$gte`/`$lte` on the formatted date strings. -/
def charListLe : List Char → List Char → Bool
  | [], _ => true
  | _ :: _, [] => false
  | a :: as, b :: bs =>
    if a < b then true
    else if b < a then false
    else charListLe as bs

/-- Lexicographic order on strings (document-store string comparison). -/
def strLe (a b : String) : Bool :=
  charListLe a.data b.data

/-- A stored User record: store-generated id plus the (normalized)
username. -/
structure UserRec where
  id : String
  username : String
deriving DecidableEq, Repr

/-- Modelled from the spec: the Exercise record shape.  The schema module
(`db_schemas`) is not among the source files; spec §3 gives the fields
`userId` (reference to a User id), `description` (required string),
`duration` (required value, carried here as the submitted form value) and
`date` (calendar date). -/
structure Exercise where
  userId : String
  description : String
  duration : String
  date : Date
deriving DecidableEq, Repr

/-- The document store state: all User and Exercise records, in insertion
order. -/
structure Db where
  users : List UserRec
  exercises : List Exercise
deriving DecidableEq, Repr

/-- Failures the store can raise into the `catch` of a handler. -/
inductive DbErr where
  | castError
  | dupKey
deriving DecidableEq, Repr

/-- The `User.findById` operation: raises a cast error when the id is not a
well-formed ObjectId, otherwise yields the matching record if any. -/
def findById (db : Db) (id : String) : Except DbErr (Option UserRec) :=
  if isValidObjectId id then .ok (db.users.find? (fun u => u.id == id))
  else .error .castError

/-- The `User.create` operation: the schema setter normalizes the username,
and the unique index on `username` raises a duplicate-key error when a
record with the same stored username already exists. -/
def createUser (db : Db) (newId : String) (username : String) :
    Except DbErr (UserRec × Db) :=
  let norm := normalizeUsername username
  if db.users.any (fun u => u.username == norm) then .error .dupKey
  else
    let u : UserRec := ⟨newId, norm⟩
    .ok (u, { db with users := db.users ++ [u] })

example : isValidFormat "2024-02-29" = true := by decide
example : isValidFormat "2024-02-30" = false := by decide
example : isValidFormat "2024-2-5" = false := by decide
example : normalizeUsername "jOHN" = "John" := by decide
example : formatDate ⟨2024, 3, 7⟩ = "2024-03-07" := by rfl
example : isValidObjectId "5fb5853f734231456ccf2a0c" = true := by decide
example : isValidObjectId "123" = false := by decide

/-- The apostrophe character used when the fallback route quotes the
requested path in its message. -/
def quoteMark : String := ⟨[Char.ofNat 39]⟩

/-- Message for a malformed id on exercise creation. -/
def msgInvalidId : String :=
  "Invalid or missing ID. The ID must be exactly 24 characters long."

/-- Message for a well-formed id with no matching User. -/
def msgUserNotFound : String :=
  "User not found. Please check the ID and try again."

/-- Message for a missing/falsy description or duration. -/
def msgDescDur : String :=
  "Description and duration are required. Please provide them and try again."

/-- Message for a supplied date that fails the strict format check. -/
def msgInvalidDate : String :=
  "Invalid date. Please use the yyyy-mm-dd format and ensure date is a valid calendar date."

/-- Message for an invalid username on user creation. -/
def msgInvalidUsername : String :=
  "Invalid username. It must be a string with at least 3 characters."

/-- Message for a duplicate-key violation on user creation. -/
def msgUserExists : String := "User already exists"

/-- Message for any other storage failure. -/
def msgServerError : String := "Server error"

/-- Message when the date-filtered log is empty and a date bound was given. -/
def msgNoDates : String :=
  "No exercises found for the specified dates. Please adjust the date range and try again."

/-- Message when the log of a user is empty and no date bound was given. -/
def msgNoUserExercises : String :=
  "Exercises not found for this user. Please check the exercises of another user."

/-- Message of the catch branch of the logs handler. -/
def msgLogsFailure : String := "Error retrieving exercises"

/-- Message of the fallback route for the empty-id exercises path. -/
def msgBadIdFormat : String :=
  "Invalid ID format. Ensure the ID is exactly 24 characters long and corresponds to an existing user."

/-- Message of the fallback route for any other unmatched path. -/
def msgPathNotFound (p : String) : String :=
  "The requested path " ++ quoteMark ++ p ++ quoteMark ++ " was not found on this server."

/-- A response sent for a request: either an error forwarded to the error
middleware (which renders it with that status and message), or a success
JSON body. -/
inductive Resp (α : Type) where
  | err (status : Nat) (message : String)
  | ok (status : Nat) (body : α)
deriving DecidableEq, Repr

/-- A value of a form-encoded body field: a string, or a non-string value
(arrays/objects produced by the extended urlencoded parser, always truthy
in the checks of the source). -/
inductive BodyVal where
  | str (s : String)
  | other
deriving DecidableEq, Repr

/-- Truthiness of an optional string field, as tested by `!field` in the
source: falsy exactly when absent or the empty string. -/
def strTruthy (v : Option String) : Bool :=
  v.getD "" != ""

/-- The `POST /api/users` handler.  `newId` is the id the store would
assign, `storeFail` models an infrastructure failure of `User.create`
(any thrown error whose code is not the duplicate-key code 11000). -/
def postUsers (db : Db) (newId : String) (storeFail : Bool)
    (username : Option BodyVal) : Resp UserRec × Db :=
  match username with
  | some (.str s) =>
    if s.length < 3 then (.err 400 msgInvalidUsername, db)
    else if storeFail then (.err 500 msgServerError, db)
    else
      match createUser db newId s with
      | .ok (u, db2) => (.ok 201 u, db2)
      | .error _ => (.err 400 msgUserExists, db)
  | _ => (.err 400 msgInvalidUsername, db)

/-- Success body of the exercise-creation handler: the created record with
its `date` re-rendered as a `YYYY-MM-DD` string. -/
structure ExercisePayload where
  id : String
  userId : String
  description : String
  duration : String
  date : String
deriving DecidableEq, Repr

/-- Result of the exercise-creation handler: the response plus the store
state after the request. -/
structure ExerciseResult where
  resp : Resp ExercisePayload
  db : Db
deriving DecidableEq, Repr

/-- The `POST /api/users/:_id/exercises` handler.  `now` is the current
local date at request-handling time (used when `date` is omitted). -/
def postExercise (db : Db) (newId userId : String)
    (description duration date : Option String) (now : Date) : ExerciseResult :=
  if !isValidObjectId userId then
    ⟨.err 400 msgInvalidId, db⟩
  else
    match db.users.find? (fun u => u.id == userId) with
    | none => ⟨.err 404 msgUserNotFound, db⟩
    | some _ =>
      if !strTruthy description || !strTruthy duration then
        ⟨.err 400 msgDescDur, db⟩
      else
        let dval := date.getD ""
        if dval != "" && !isValidFormat dval then
          ⟨.err 400 msgInvalidDate, db⟩
        else
          let stored : Date := if dval != "" then (parseDate dval).getD now else now
          let ex : Exercise := ⟨userId, description.getD "", duration.getD "", stored⟩
          ⟨.ok 200 ⟨newId, userId, ex.description, ex.duration, formatDate stored⟩,
           { db with exercises := db.exercises ++ [ex] }⟩

/-- Effective result cap of the logs handler:
`!limit ? (limit = 20) : limit == 0 ? (limit = 1) : limit` -/
def effectiveLimit : Option Nat → Nat
  | none => 20
  | some 0 => 1
  | some n => n

/-- The date filter the logs handler builds: membership between the
formatted `from`/`to` bounds, compared as the store compares the formatted
date strings. -/
def dateInRange (fromQ toQ : Option Date) (d : Date) : Bool :=
  (match fromQ with
   | none => true
   | some f => strLe (formatDate f) (formatDate d)) &&
  (match toQ with
   | none => true
   | some t => strLe (formatDate d) (formatDate t))

/-- The exercises matching the filter of the logs query, before the limit. -/
def logFilter (db : Db) (userId : String) (fromQ toQ : Option Date) :
    List Exercise :=
  db.exercises.filter (fun e => e.userId == userId && dateInRange fromQ toQ e.date)

/-- One entry of the logs success body. -/
structure LogEntry where
  description : String
  duration : String
  date : String
deriving DecidableEq, Repr

/-- Success body of the logs handler. -/
structure LogsPayload where
  username : String
  count : Nat
  id : String
  log : List LogEntry
deriving DecidableEq, Repr

/-- Body of the `GET /api/users/:_id/logs` handler inside its `try` block.
`fromQ`/`toQ` are the parsed optional date bounds, `limit` the optional
numeric limit.  When the filtered list is empty the handler forwards a 404
error and still falls through to the success response, so the result is a
list of responses. -/
def getLogsTry (db : Db) (userId : String) (fromQ toQ : Option Date)
    (limit : Option Nat) : Except DbErr (List (Resp LogsPayload)) := do
  let found ← findById db userId
  match found with
  | none => pure [.err 404 msgUserNotFound]
  | some user =>
    let exs := (logFilter db userId fromQ toQ).take (effectiveLimit limit)
    let errs : List (Resp LogsPayload) :=
      if exs.length == 0 then
        if fromQ.isSome || toQ.isSome then [.err 404 msgNoDates]
        else [.err 404 msgNoUserExercises]
      else []
    let entries := exs.map (fun e => LogEntry.mk e.description e.duration (formatDate e.date))
    pure (errs ++ [.ok 200 ⟨user.username, entries.length, userId, entries⟩])

/-- The `GET /api/users/:_id/logs` handler with its `catch` branch: any
store error (in particular the cast error of `findById` on a malformed id)
becomes a 500 response. -/
def getLogs (db : Db) (userId : String) (fromQ toQ : Option Date)
    (limit : Option Nat) : List (Resp LogsPayload) :=
  match getLogsTry db userId fromQ toQ limit with
  | .ok rs => rs
  | .error _ => [.err 500 msgLogsFailure]

/-- The `app.all("*")` fallback handler over the request path. -/
def fallback (path : String) : Resp Unit :=
  if path == "/api/users//exercises" then .err 400 msgBadIdFormat
  else .err 404 (msgPathNotFound path)

/-- The error middleware: default status 500, default message. -/
def errorMiddleware (statusCode : Option Nat) (message : Option String) :
    Nat × String :=
  (statusCode.getD 500, message.getD "Something went wrong")

deriving instance DecidableEq for Except

/-- No two stored users share a username. -/
def UsernamesUnique (db : Db) : Prop :=
  List.Pairwise (fun a b : UserRec => a.username ≠ b.username) db.users

/-- C4: every username accepted by user creation is stored and returned
with its first character uppercased and all later characters lowercased,
unconditionally (e.g. "jOHN" becomes "John"), and creation preserves the
invariant that no two users share a username. -/
theorem createUser_normalizes (db : Db) (newId username : String)
    (u : UserRec) (db2 : Db)
    (h : createUser db newId username = .ok (u, db2)) :
    u.username = normalizeUsername username ∧
    u ∈ db2.users ∧
    normalizeUsername "jOHN" = "John" ∧
    (UsernamesUnique db → UsernamesUnique db2) := by
  unfold createUser at h
  by_cases hdup :
      db.users.any (fun x => x.username == normalizeUsername username) = true
  · simp [hdup] at h
  · rw [Bool.not_eq_true] at hdup
    simp [hdup] at h
    obtain ⟨hu, hdb2⟩ := h
    refine ⟨by rw [← hu], ?_, by decide, ?_⟩
    · rw [← hdb2, ← hu]
      simp
    · intro huniq
      rw [← hdb2]
      unfold UsernamesUnique at huniq ⊢
      rw [List.pairwise_append]
      refine ⟨huniq, by simp, ?_⟩
      intro a ha b hb
      simp at hb
      rw [hb]
      have := List.any_eq_false.mp hdup a ha
      simpa using this

/-- Witness for C4 at a concrete input: creating a user with username
"jOHN" in an empty store yields the stored username "John". -/
theorem createUser_normalizes_witness :
    (UserRec.mk "aaaaaaaaaaaaaaaaaaaaaaaa" "John").username =
      normalizeUsername "jOHN" ∧
    UserRec.mk "aaaaaaaaaaaaaaaaaaaaaaaa" "John" ∈
      (Db.mk [UserRec.mk "aaaaaaaaaaaaaaaaaaaaaaaa" "John"] []).users ∧
    normalizeUsername "jOHN" = "John" ∧
    (UsernamesUnique (Db.mk [] []) →
      UsernamesUnique (Db.mk [UserRec.mk "aaaaaaaaaaaaaaaaaaaaaaaa" "John"] [])) :=
  createUser_normalizes (Db.mk [] []) "aaaaaaaaaaaaaaaaaaaaaaaa" "jOHN"
    (UserRec.mk "aaaaaaaaaaaaaaaaaaaaaaaa" "John")
    (Db.mk [UserRec.mk "aaaaaaaaaaaaaaaaaaaaaaaa" "John"] []) (by decide)

/-- C1: the exercise-creation handler checks conditions in order and stops
at the first failure: 400 for a malformed id (whatever the body holds),
then 404 when no user matches a well-formed id (whatever the body holds),
then 400 when description or duration is missing/falsy (whatever the date
holds). -/
theorem postExercise_check_order (db : Db) (newId uid : String)
    (desc dur date : Option String) (now : Date) :
    (isValidObjectId uid = false →
      (postExercise db newId uid desc dur date now).resp = .err 400 msgInvalidId) ∧
    (isValidObjectId uid = true →
      db.users.find? (fun x => x.id == uid) = none →
      (postExercise db newId uid desc dur date now).resp = .err 404 msgUserNotFound) ∧
    (∀ u, isValidObjectId uid = true →
      db.users.find? (fun x => x.id == uid) = some u →
      (strTruthy desc = false ∨ strTruthy dur = false) →
      (postExercise db newId uid desc dur date now).resp = .err 400 msgDescDur) := by
  refine ⟨?_, ?_, ?_⟩
  · intro h
    simp [postExercise, h]
  · intro h hf
    simp [postExercise, h, hf]
  · intro u h hf hdd
    rcases hdd with hd | hd <;> simp [postExercise, h, hf, hd]

/-- Witness for C1 at concrete inputs: a malformed id gets 400, a
well-formed unknown id gets 404 even with a missing body, and a known user
with a missing duration gets the description/duration 400. -/
theorem postExercise_check_order_witness :
    (postExercise (Db.mk [] []) "e1" "123" none none none ⟨2024, 1, 1⟩).resp =
      .err 400 msgInvalidId ∧
    (postExercise (Db.mk [] []) "e1" "aaaaaaaaaaaaaaaaaaaaaaaa" none none none
      ⟨2024, 1, 1⟩).resp = .err 404 msgUserNotFound ∧
    (postExercise (Db.mk [UserRec.mk "aaaaaaaaaaaaaaaaaaaaaaaa" "Amy"] [])
      "e1" "aaaaaaaaaaaaaaaaaaaaaaaa" (some "Run") none none ⟨2024, 1, 1⟩).resp =
      .err 400 msgDescDur :=
  ⟨(postExercise_check_order (Db.mk [] []) "e1" "123" none none none
      ⟨2024, 1, 1⟩).1 (by decide),
   (postExercise_check_order (Db.mk [] []) "e1" "aaaaaaaaaaaaaaaaaaaaaaaa"
      none none none ⟨2024, 1, 1⟩).2.1 (by decide) (by decide),
   (postExercise_check_order (Db.mk [UserRec.mk "aaaaaaaaaaaaaaaaaaaaaaaa" "Amy"] [])
      "e1" "aaaaaaaaaaaaaaaaaaaaaaaa" (some "Run") none none ⟨2024, 1, 1⟩).2.2
      (UserRec.mk "aaaaaaaaaaaaaaaaaaaaaaaa" "Amy") (by decide) (by decide)
      (Or.inr (by decide))⟩

/-- C6: user creation responds 400 with the invalid-username message when
the username field is absent, not a string, or shorter than 3 characters;
400 "User already exists" on a duplicate-key violation; 500 "Server error"
on any other storage failure; and otherwise 201 with the created User. -/
theorem postUsers_spec (db : Db) (newId : String) (storeFail : Bool)
    (username : Option BodyVal) :
    ((∀ s, username = some (.str s) → s.length < 3) →
      (postUsers db newId storeFail username).1 = .err 400 msgInvalidUsername) ∧
    (∀ s, username = some (.str s) → 3 ≤ s.length → storeFail = true →
      (postUsers db newId storeFail username).1 = .err 500 msgServerError) ∧
    (∀ s e, username = some (.str s) → 3 ≤ s.length → storeFail = false →
      createUser db newId s = .error e →
      (postUsers db newId storeFail username).1 = .err 400 msgUserExists) ∧
    (∀ s u db2, username = some (.str s) → 3 ≤ s.length → storeFail = false →
      createUser db newId s = .ok (u, db2) →
      postUsers db newId storeFail username = (.ok 201 u, db2)) := by
  refine ⟨?_, ?_, ?_, ?_⟩
  · intro hshort
    match username with
    | none => simp [postUsers]
    | some .other => simp [postUsers]
    | some (.str s) =>
      have hs := hshort s rfl
      simp [postUsers, hs]
  · intro s hu hlen hfail
    subst hu hfail
    simp [postUsers, Nat.not_lt.mpr hlen]
  · intro s e hu hlen hfail hdup
    subst hu hfail
    simp [postUsers, Nat.not_lt.mpr hlen, hdup]
  · intro s u db2 hu hlen hfail hok
    subst hu hfail
    simp [postUsers, Nat.not_lt.mpr hlen, hok]

/-- Witness for C6 at concrete inputs: a 2-character username gets the 400,
a duplicate of "Amy" gets "User already exists", an infrastructure failure
gets the 500, and a fresh "amy" gets 201 with the created, normalized
user. -/
theorem postUsers_spec_witness :
    (postUsers (Db.mk [] []) "u1" false (some (.str "hi"))).1 =
      .err 400 msgInvalidUsername ∧
    (postUsers (Db.mk [UserRec.mk "u0" "Amy"] []) "u1" false
      (some (.str "AMY"))).1 = .err 400 msgUserExists ∧
    (postUsers (Db.mk [] []) "u1" true (some (.str "amy"))).1 =
      .err 500 msgServerError ∧
    postUsers (Db.mk [] []) "u1" false (some (.str "amy")) =
      (.ok 201 (UserRec.mk "u1" "Amy"), Db.mk [UserRec.mk "u1" "Amy"] []) :=
  ⟨(postUsers_spec (Db.mk [] []) "u1" false (some (.str "hi"))).1
      (by intro s hs; cases hs; decide),
   (postUsers_spec (Db.mk [UserRec.mk "u0" "Amy"] []) "u1" false
      (some (.str "AMY"))).2.2.1 "AMY" .dupKey rfl (by decide) rfl (by decide),
   (postUsers_spec (Db.mk [] []) "u1" true (some (.str "amy"))).2.1 "amy"
      rfl (by decide) rfl,
   (postUsers_spec (Db.mk [] []) "u1" false (some (.str "amy"))).2.2.2 "amy"
      (UserRec.mk "u1" "Amy") (Db.mk [UserRec.mk "u1" "Amy"] []) rfl
      (by decide) rfl (by decide)⟩

/-- C7: a successful exercise creation with the date omitted stores the
current local date at request-handling time as the date of the exercise, and
responds with status 200 (not 201) carrying that date rendered as a
`YYYY-MM-DD` string. -/
theorem postExercise_default_date (db : Db) (newId uid : String)
    (u : UserRec) (desc dur : Option String) (now : Date)
    (hv : isValidObjectId uid = true)
    (hf : db.users.find? (fun x => x.id == uid) = some u)
    (hdesc : strTruthy desc = true) (hdur : strTruthy dur = true) :
    postExercise db newId uid desc dur none now =
      ⟨.ok 200 ⟨newId, uid, desc.getD "", dur.getD "", formatDate now⟩,
       Db.mk db.users
         (db.exercises ++ [Exercise.mk uid (desc.getD "") (dur.getD "") now])⟩ := by
  simp [postExercise, hv, hf, hdesc, hdur]

/-- Witness for C7 at a concrete input: creating an exercise for the known
user with no date on 2024-03-07 stores that date and answers 200 with
"2024-03-07". -/
theorem postExercise_default_date_witness :
    postExercise (Db.mk [UserRec.mk "aaaaaaaaaaaaaaaaaaaaaaaa" "Amy"] [])
        "e1" "aaaaaaaaaaaaaaaaaaaaaaaa" (some "Run") (some "30") none
        ⟨2024, 3, 7⟩ =
      ⟨.ok 200 ⟨"e1", "aaaaaaaaaaaaaaaaaaaaaaaa", "Run", "30", "2024-03-07"⟩,
       Db.mk [UserRec.mk "aaaaaaaaaaaaaaaaaaaaaaaa" "Amy"]
         [Exercise.mk "aaaaaaaaaaaaaaaaaaaaaaaa" "Run" "30" ⟨2024, 3, 7⟩]⟩ := by
  have h := postExercise_default_date
    (Db.mk [UserRec.mk "aaaaaaaaaaaaaaaaaaaaaaaa" "Amy"] [])
    "e1" "aaaaaaaaaaaaaaaaaaaaaaaa" (UserRec.mk "aaaaaaaaaaaaaaaaaaaaaaaa" "Amy")
    (some "Run") (some "30") ⟨2024, 3, 7⟩ (by decide) (by decide) (by decide)
    (by decide)
  rw [h]
  decide

/-- C8: the fallback route answers 400 with the id-format message exactly
on the malformed exercises path with an empty id segment, and 404 with a
message naming the requested path on every other unmatched path. -/
theorem fallback_spec (path : String) :
    (path = "/api/users//exercises" → fallback path = .err 400 msgBadIdFormat) ∧
    (path ≠ "/api/users//exercises" →
      fallback path = .err 404 (msgPathNotFound path)) := by
  constructor
  · intro h
    simp [fallback, h]
  · intro h
    simp [fallback, h]

/-- Witness for C8 at concrete paths: the empty-id exercises path gets the
400, and "/nope" gets the 404 naming the path. -/
theorem fallback_spec_witness :
    fallback "/api/users//exercises" = .err 400 msgBadIdFormat ∧
    fallback "/nope" = .err 404 (msgPathNotFound "/nope") :=
  ⟨(fallback_spec "/api/users//exercises").1 rfl,
   (fallback_spec "/nope").2 (by decide)⟩

/-- C10: a logs request with a malformed id makes the user lookup raise a
cast error, so the catch branch answers 500 "Error retrieving exercises" —
unlike the exercise-creation endpoint, which answers 400 for the same
malformed id. -/
theorem getLogs_malformed_id (db : Db) (uid : String)
    (fromQ toQ : Option Date) (limit : Option Nat)
    (newId : String) (desc dur date : Option String) (now : Date)
    (h : isValidObjectId uid = false) :
    getLogs db uid fromQ toQ limit = [.err 500 msgLogsFailure] ∧
    (postExercise db newId uid desc dur date now).resp = .err 400 msgInvalidId := by
  constructor
  · simp [getLogs, getLogsTry, findById, h, bind, Except.bind]
  · simp [postExercise, h]

/-- Witness for C10 at a concrete input: the malformed id "123" gets the
500 from the logs endpoint and the 400 from the exercise endpoint. -/
theorem getLogs_malformed_id_witness :
    getLogs (Db.mk [] []) "123" none none none = [.err 500 msgLogsFailure] ∧
    (postExercise (Db.mk [] []) "e1" "123" (some "Run") (some "30") none
      ⟨2024, 1, 1⟩).resp = .err 400 msgInvalidId :=
  getLogs_malformed_id (Db.mk [] []) "123" none none none "e1" (some "Run")
    (some "30") none ⟨2024, 1, 1⟩ (by decide)

/-- C3: on an existing user whose filtered exercise list is empty, the logs
handler forwards a 404 (the dates message when from/to was supplied, the
per-user message otherwise) and still sends the 200 success response with
an empty log: both responses are emitted on the same request. -/
theorem getLogs_double_response (db : Db) (uid : String) (u : UserRec)
    (fromQ toQ : Option Date) (limit : Option Nat)
    (hv : isValidObjectId uid = true)
    (hf : db.users.find? (fun x => x.id == uid) = some u)
    (hempty : logFilter db uid fromQ toQ = []) :
    getLogs db uid fromQ toQ limit =
      [.err 404 (if fromQ.isSome || toQ.isSome then msgNoDates
                 else msgNoUserExercises),
       .ok 200 ⟨u.username, 0, uid, []⟩] := by
  rcases fromQ with _ | f <;> rcases toQ with _ | t <;>
    simp_all [getLogs, getLogsTry, findById, hv, hf, hempty, bind, Except.bind,
      pure, Except.pure]

/-- Witness for C3 at a concrete input: a logs request for the known user
with no exercises and no date bounds emits the per-user 404 followed by
the empty 200 success body. -/
theorem getLogs_double_response_witness :
    getLogs (Db.mk [UserRec.mk "aaaaaaaaaaaaaaaaaaaaaaaa" "Amy"] [])
        "aaaaaaaaaaaaaaaaaaaaaaaa" none none none =
      [.err 404 msgNoUserExercises,
       .ok 200 ⟨"Amy", 0, "aaaaaaaaaaaaaaaaaaaaaaaa", []⟩] :=
  getLogs_double_response (Db.mk [UserRec.mk "aaaaaaaaaaaaaaaaaaaaaaaa" "Amy"] [])
    "aaaaaaaaaaaaaaaaaaaaaaaa" (UserRec.mk "aaaaaaaaaaaaaaaaaaaaaaaa" "Amy")
    none none none (by decide) (by decide) (by decide)

/-- Shared helper: the full response list of the logs handler when the id
is well-formed and the user is found. -/
theorem getLogs_found_eq (db : Db) (uid : String) (u : UserRec)
    (fromQ toQ : Option Date) (limit : Option Nat)
    (hv : isValidObjectId uid = true)
    (hf : db.users.find? (fun x => x.id == uid) = some u) :
    getLogs db uid fromQ toQ limit =
      (if (logFilter db uid fromQ toQ).take (effectiveLimit limit) = [] then
        (if fromQ.isSome || toQ.isSome then [Resp.err 404 msgNoDates]
         else [Resp.err 404 msgNoUserExercises])
       else []) ++
      [Resp.ok 200
        (LogsPayload.mk u.username
          ((logFilter db uid fromQ toQ).take (effectiveLimit limit)).length uid
          (((logFilter db uid fromQ toQ).take (effectiveLimit limit)).map
            (fun e => LogEntry.mk e.description e.duration (formatDate e.date))))] := by
  simp [getLogs, getLogsTry, findById, hv, hf, bind, Except.bind, pure, Except.pure]

/-- C2: the effective result cap of the logs handler is 20 when `limit` is
absent, exactly 1 when `limit` is supplied as 0, and the supplied value
otherwise; in particular a `limit=0` query on a user with at least one
matching exercise returns exactly one log entry. -/
theorem getLogs_limit_cap :
    effectiveLimit none = 20 ∧
    effectiveLimit (some 0) = 1 ∧
    (∀ n : Nat, n ≠ 0 → effectiveLimit (some n) = n) ∧
    (∀ (db : Db) (uid : String) (u : UserRec),
      isValidObjectId uid = true →
      db.users.find? (fun x => x.id == uid) = some u →
      logFilter db uid none none ≠ [] →
      ∀ p : LogsPayload, Resp.ok 200 p ∈ getLogs db uid none none (some 0) →
        p.log.length = 1) := by
  refine ⟨rfl, rfl, ?_, ?_⟩
  · intro n hn
    cases n with
    | zero => exact absurd rfl hn
    | succ k => rfl
  · intro db uid u hv hf hne p hp
    obtain ⟨e, l', heq⟩ := List.exists_cons_of_ne_nil hne
    rw [getLogs_found_eq db uid u none none (some 0) hv hf, heq] at hp
    simp [effectiveLimit] at hp
    simp [hp]

/-- Witness for C2 at concrete inputs: the limit defaults, the `limit=0`
special case, a nonzero limit passed through, and a `limit=0` query on a
user with one exercise yielding a single log entry. -/
theorem getLogs_limit_cap_witness :
    effectiveLimit none = 20 ∧
    effectiveLimit (some 0) = 1 ∧
    effectiveLimit (some 5) = 5 ∧
    (LogsPayload.mk "Amy" 1 "aaaaaaaaaaaaaaaaaaaaaaaa"
      [LogEntry.mk "Run" "30" "2024-03-07"]).log.length = 1 :=
  ⟨getLogs_limit_cap.1, getLogs_limit_cap.2.1, getLogs_limit_cap.2.2.1 5 (by decide),
   getLogs_limit_cap.2.2.2
     (Db.mk [UserRec.mk "aaaaaaaaaaaaaaaaaaaaaaaa" "Amy"]
       [Exercise.mk "aaaaaaaaaaaaaaaaaaaaaaaa" "Run" "30" ⟨2024, 3, 7⟩])
     "aaaaaaaaaaaaaaaaaaaaaaaa" (UserRec.mk "aaaaaaaaaaaaaaaaaaaaaaaa" "Amy")
     (by decide) (by decide) (by decide)
     (LogsPayload.mk "Amy" 1 "aaaaaaaaaaaaaaaaaaaaaaaa"
       [LogEntry.mk "Run" "30" "2024-03-07"]) (by decide)⟩

/-- C9: every 200 success body of the logs handler has `count` equal to the
number of log entries, at most the effective limit of them, and each entry
is exactly the description, duration and `YYYY-MM-DD`-rendered date of a
stored exercise. -/
theorem getLogs_payload_invariants (db : Db) (uid : String)
    (fromQ toQ : Option Date) (limit : Option Nat) (p : LogsPayload)
    (hp : Resp.ok 200 p ∈ getLogs db uid fromQ toQ limit) :
    p.count = p.log.length ∧
    p.log.length ≤ effectiveLimit limit ∧
    ∀ en ∈ p.log, ∃ ex ∈ db.exercises,
      en = LogEntry.mk ex.description ex.duration (formatDate ex.date) := by
  cases hv : isValidObjectId uid with
  | false =>
    simp [getLogs, getLogsTry, findById, hv, bind, Except.bind] at hp
  | true =>
    cases hfind : db.users.find? (fun x => x.id == uid) with
    | none =>
      simp [getLogs, getLogsTry, findById, hv, hfind, bind, Except.bind,
        pure, Except.pure] at hp
    | some u =>
      rw [getLogs_found_eq db uid u fromQ toQ limit hv hfind,
        List.mem_append] at hp
      rcases hp with h1 | h1
      · split at h1
        · split at h1 <;> simp at h1
        · simp at h1
      · simp only [List.mem_singleton] at h1
        rw [Resp.ok.injEq] at h1
        obtain ⟨-, rfl⟩ := h1
        refine ⟨by simp, ?_, ?_⟩
        · rw [List.length_map]
          exact List.length_take_le _ _
        · intro en hen
          rw [List.mem_map] at hen
          obtain ⟨ex, hex, rfl⟩ := hen
          have hex2 : ex ∈ logFilter db uid fromQ toQ :=
            List.take_subset _ _ hex
          have hex3 : ex ∈ db.exercises := List.mem_of_mem_filter hex2
          exact ⟨ex, hex3, rfl⟩

/-- Witness for C9 at a concrete input: the success body for the known user
with one exercise has count 1, one entry, within the default limit, and
the entry carries the stored fields with the date "2024-03-07". -/
theorem getLogs_payload_invariants_witness :
    (LogsPayload.mk "Amy" 1 "aaaaaaaaaaaaaaaaaaaaaaaa"
      [LogEntry.mk "Run" "30" "2024-03-07"]).count =
      (LogsPayload.mk "Amy" 1 "aaaaaaaaaaaaaaaaaaaaaaaa"
        [LogEntry.mk "Run" "30" "2024-03-07"]).log.length ∧
    (LogsPayload.mk "Amy" 1 "aaaaaaaaaaaaaaaaaaaaaaaa"
      [LogEntry.mk "Run" "30" "2024-03-07"]).log.length ≤ effectiveLimit none ∧
    ∀ en ∈ (LogsPayload.mk "Amy" 1 "aaaaaaaaaaaaaaaaaaaaaaaa"
      [LogEntry.mk "Run" "30" "2024-03-07"]).log,
      ∃ ex ∈ (Db.mk [UserRec.mk "aaaaaaaaaaaaaaaaaaaaaaaa" "Amy"]
        [Exercise.mk "aaaaaaaaaaaaaaaaaaaaaaaa" "Run" "30" ⟨2024, 3, 7⟩]).exercises,
        en = LogEntry.mk ex.description ex.duration (formatDate ex.date) :=
  getLogs_payload_invariants
    (Db.mk [UserRec.mk "aaaaaaaaaaaaaaaaaaaaaaaa" "Amy"]
      [Exercise.mk "aaaaaaaaaaaaaaaaaaaaaaaa" "Run" "30" ⟨2024, 3, 7⟩])
    "aaaaaaaaaaaaaaaaaaaaaaaa" none none none
    (LogsPayload.mk "Amy" 1 "aaaaaaaaaaaaaaaaaaaaaaaa"
      [LogEntry.mk "Run" "30" "2024-03-07"]) (by decide)

/-- The characterization in the spec of a strictly valid date string: exactly a
4-digit year, dash, 2-digit month, dash, 2-digit day, whose month and day
denote a real calendar date of that (leap-year-aware) month. -/
def StrictDateSpec (s : String) : Prop :=
  ∃ y1 y2 y3 y4 m1 m2 d1 d2 : Char,
    s.data = [y1, y2, y3, y4, '-', m1, m2, '-', d1, d2] ∧
    (y1.isDigit ∧ y2.isDigit ∧ y3.isDigit ∧ y4.isDigit ∧
     m1.isDigit ∧ m2.isDigit ∧ d1.isDigit ∧ d2.isDigit) ∧
    1 ≤ digitVal m1 * 10 + digitVal m2 ∧
    digitVal m1 * 10 + digitVal m2 ≤ 12 ∧
    1 ≤ digitVal d1 * 10 + digitVal d2 ∧
    digitVal d1 * 10 + digitVal d2 ≤
      daysInMonth
        (digitVal y1 * 1000 + digitVal y2 * 100 + digitVal y3 * 10 + digitVal y4)
        (digitVal m1 * 10 + digitVal m2)

/-- Shared helper: the strict parser succeeds exactly on character lists of
the strict `YYYY-MM-DD` shape denoting a real calendar date. -/
theorem parseDateList_isSome_iff (l : List Char) :
    (parseDateList l).isSome = true ↔
      ∃ y1 y2 y3 y4 m1 m2 d1 d2 : Char,
        l = [y1, y2, y3, y4, '-', m1, m2, '-', d1, d2] ∧
        (y1.isDigit ∧ y2.isDigit ∧ y3.isDigit ∧ y4.isDigit ∧
         m1.isDigit ∧ m2.isDigit ∧ d1.isDigit ∧ d2.isDigit) ∧
        1 ≤ digitVal m1 * 10 + digitVal m2 ∧
        digitVal m1 * 10 + digitVal m2 ≤ 12 ∧
        1 ≤ digitVal d1 * 10 + digitVal d2 ∧
        digitVal d1 * 10 + digitVal d2 ≤
          daysInMonth
            (digitVal y1 * 1000 + digitVal y2 * 100 + digitVal y3 * 10 + digitVal y4)
            (digitVal m1 * 10 + digitVal m2) := by
  constructor
  · intro h
    rw [Option.isSome_iff_exists] at h
    obtain ⟨dt, hdt⟩ := h
    unfold parseDateList at hdt
    split at hdt
    · rename_i y1 y2 y3 y4 s1 m1 m2 s2 d1 d2
      split_ifs at hdt with hc1
      · dsimp only at hdt
        split_ifs at hdt with hc2
        · simp only [Bool.and_eq_true, beq_iff_eq, decide_eq_true_eq] at hc1 hc2
          obtain ⟨⟨⟨⟨⟨⟨⟨⟨⟨hs1, hs2⟩, h1⟩, h2⟩, h3⟩, h4⟩, h5⟩, h6⟩, h7⟩, h8⟩ := hc1
          obtain ⟨⟨⟨hm1, hm2⟩, hd1⟩, hd2⟩ := hc2
          subst hs1 hs2
          exact ⟨y1, y2, y3, y4, m1, m2, d1, d2, rfl,
            ⟨h1, h2, h3, h4, h5, h6, h7, h8⟩, hm1, hm2, hd1, hd2⟩
    · simp at hdt
  · rintro ⟨y1, y2, y3, y4, m1, m2, d1, d2, heq,
      ⟨h1, h2, h3, h4, h5, h6, h7, h8⟩, hm1, hm2, hd1, hd2⟩
    subst heq
    simp [parseDateList, h1, h2, h3, h4, h5, h6, h7, h8, hm1, hm2, hd1, hd2]

/-- C5: the date-validity check accepts a string exactly when it strictly
matches the 4-digit-year–2-digit-month–2-digit-day pattern and denotes a
real calendar date; "2024-02-29" passes (leap year), "2024-02-30" and the
non-strict "2024-2-5" fail; and a supplied date failing the check makes
exercise creation answer 400 with the invalid-date message. -/
theorem isValidFormat_strict (s : String) :
    (isValidFormat s = true ↔ StrictDateSpec s) ∧
    isValidFormat "2024-02-29" = true ∧
    isValidFormat "2024-02-30" = false ∧
    isValidFormat "2024-2-5" = false ∧
    (∀ (db : Db) (newId uid : String) (u : UserRec)
      (desc dur : Option String) (d : String) (now : Date),
      isValidObjectId uid = true →
      db.users.find? (fun x => x.id == uid) = some u →
      strTruthy desc = true → strTruthy dur = true →
      d ≠ "" → isValidFormat d = false →
      (postExercise db newId uid desc dur (some d) now).resp =
        .err 400 msgInvalidDate) := by
  refine ⟨parseDateList_isSome_iff s.data, by decide, by decide, by decide, ?_⟩
  intro db newId uid u desc dur d now hv hf hdesc hdur hne hbad
  simp [postExercise, hv, hf, hdesc, hdur, hne, hbad]

/-- Witness for C5 at concrete inputs: "2024-02-29" satisfies the strict
calendar-date characterization, and supplying "2024-02-30" to exercise
creation for the known user yields the invalid-date 400. -/
theorem isValidFormat_strict_witness :
    StrictDateSpec "2024-02-29" ∧
    (postExercise (Db.mk [UserRec.mk "aaaaaaaaaaaaaaaaaaaaaaaa" "Amy"] [])
      "e1" "aaaaaaaaaaaaaaaaaaaaaaaa" (some "Run") (some "30")
      (some "2024-02-30") ⟨2024, 1, 1⟩).resp = .err 400 msgInvalidDate :=
  ⟨(isValidFormat_strict "2024-02-29").1.mp (by decide),
   (isValidFormat_strict "2024-02-29").2.2.2.2
     (Db.mk [UserRec.mk "aaaaaaaaaaaaaaaaaaaaaaaa" "Amy"] []) "e1"
     "aaaaaaaaaaaaaaaaaaaaaaaa" (UserRec.mk "aaaaaaaaaaaaaaaaaaaaaaaa" "Amy")
     (some "Run") (some "30") "2024-02-30" ⟨2024, 1, 1⟩ (by decide) (by decide)
     (by decide) (by decide) (by decide) (by decide)⟩
